import Mathlib

/-!
Verification development for the calendar-server repository.

Shallow embedding of the Google Calendar sync service
(`GoogleCalendarSyncService`), its persistence helpers (`supabaseService`)
and the rate limiter (`RateLimiter`).  Each definition mirrors one source
function; JavaScript promises/exceptions are modelled with `Except`,
machine time (`Date.now()`) is an explicit `Int` parameter in
milliseconds, and remote I/O is modelled by explicit outcome oracles
passed as arguments.
-/

deriving instance DecidableEq for Except

namespace CalendarServer

/-! ## String helpers: JS `String.prototype.includes` and `toLowerCase` -/

/-- Model of JS list prefix test on characters (helper for `includes`). -/
def listStartsWith : List Char → List Char → Bool
  | [], _ => true
  | _ :: _, [] => false
  | p :: ps, c :: cs => (p = c) && listStartsWith ps cs

/-- Model of JS `String.prototype.includes` on character lists:
`pat` occurs contiguously somewhere in the list. -/
def listContainsSub (pat : List Char) : List Char → Bool
  | [] => listStartsWith pat []
  | c :: cs => listStartsWith pat (c :: cs) || listContainsSub pat cs

/-- Model of `message.toLowerCase().includes(pat)` (with `pat` already
lower-case, as all patterns in the source are). -/
def msgIncludes (message pat : String) : Bool :=
  listContainsSub pat.toList (message.toList.map Char.toLower)

/-! ## `GoogleCalendarSyncService.isPersistentError` -/

/-- Embedding of `isPersistentError(error)`: an error is persistent
(terminal, not retried) iff its lower-cased message contains one of the
markers `410`, `404`, `401`, `403`, `invalid_grant`, `token_revoked`.
Errors are modelled by their message string. -/
def isPersistentError (msg : String) : Bool :=
  msgIncludes msg "410" || msgIncludes msg "404" ||
  msgIncludes msg "401" || msgIncludes msg "403" ||
  msgIncludes msg "invalid_grant" || msgIncludes msg "token_revoked"

example : isPersistentError "Google Calendar API error: 404 - gone" = true := by decide
example : isPersistentError "network timeout" = false := by decide

/-! ## `GoogleCalendarSyncService.withRetry` -/

/-- Result of a `withRetry` run: the final outcome, how many times the
wrapped operation was attempted, and the list of back-off sleeps (ms)
performed between attempts, in order. -/
structure RetryResult (α : Type) where
  result : Except String α
  attempts : Nat
  delays : List Nat
  deriving Repr, DecidableEq

/-- Loop body of `withRetry` (the `for (let i = 0; ...)` loop).
`fn i` is the outcome of attempt number `i` (0-based); `rem` is the
number of loop iterations remaining (`maxRetries - i`), used as
structural fuel.  The `rem = 0` case corresponds to the loop never
executing (`maxRetries = 0`), where the source throws the still-undefined
`lastError`. -/
def withRetryGo (fn : Nat → Except String α) (retryDelay maxRetries : Nat) :
    Nat → Nat → RetryResult α
  | 0, _ => ⟨Except.error "undefined", 0, []⟩
  | rem + 1, i =>
    match fn i with
    | Except.ok a => ⟨Except.ok a, 1, []⟩
    | Except.error e =>
      if isPersistentError e || i == maxRetries - 1 then ⟨Except.error e, 1, []⟩
      else
        let r := withRetryGo fn retryDelay maxRetries rem (i + 1)
        ⟨r.result, r.attempts + 1, retryDelay * (i + 1) :: r.delays⟩

/-- Embedding of `withRetry(fn, maxRetries)` with back-off base
`retryDelay` (source default `this.retryDelay`). -/
def withRetry (fn : Nat → Except String α) (maxRetries retryDelay : Nat) : RetryResult α :=
  withRetryGo fn retryDelay maxRetries maxRetries 0

example :
    withRetry (fun _ => (Except.error "boom 404" : Except String Nat)) 3 1000 =
      ⟨Except.error "boom 404", 1, []⟩ := by decide

example :
    withRetry (fun _ => (Except.error "timeout" : Except String Nat)) 3 1000 =
      ⟨Except.error "timeout", 3, [1000, 2000]⟩ := by decide

/-- Unfolding equation for one executed iteration of the retry loop. -/
theorem withRetryGo_succ (fn : Nat → Except String α) (d n rem i : Nat) :
    withRetryGo fn d n (rem + 1) i =
      match fn i with
      | Except.ok a => ⟨Except.ok a, 1, []⟩
      | Except.error e =>
        if isPersistentError e || i == n - 1 then ⟨Except.error e, 1, []⟩
        else
          let r := withRetryGo fn d n rem (i + 1)
          ⟨r.result, r.attempts + 1, d * (i + 1) :: r.delays⟩ := rfl

/-- Helper: if every attempt up to `n` fails with a non-persistent error,
the retry loop runs all remaining iterations, sleeping `d * (i + 1)`
after attempt `i`, and ends with the last attempt's error. -/
theorem withRetryGo_exhaust (fn : Nat → Except String α) (d n : Nat) (m : Nat → String)
    (hfn : ∀ i, i < n → fn i = Except.error (m i))
    (htr : ∀ i, i < n → isPersistentError (m i) = false) :
    ∀ rem i, 0 < rem → i + rem = n →
      withRetryGo fn d n rem i =
        ⟨Except.error (m (n - 1)), rem, (List.range' (i + 1) (rem - 1)).map (fun j => d * j)⟩ := by
  intro rem
  induction rem with
  | zero => intro i h; exact absurd h (by omega)
  | succ k ih =>
    intro i _ hin
    have hi : i < n := by omega
    cases k with
    | zero =>
      have hieq : i = n - 1 := by omega
      subst hieq
      simp [withRetryGo_succ, hfn (n - 1) hi, htr (n - 1) hi]
    | succ k' =>
      have hne : ¬ (i = n - 1) := by omega
      rw [withRetryGo_succ]
      rw [ih (i + 1) (by omega) (by omega)]
      simp [hfn i hi, htr i hi, hne, List.range'_succ]

/-- C5: for `withRetry` with `maxAttempts ≥ 1`: a first attempt failing
with a persistent error (message containing 404/410/401/403/
invalid_grant/token_revoked) propagates immediately after exactly one
attempt with no sleeps; if every attempt fails with a non-persistent
error, all `maxAttempts` attempts run, the sleeps are
`baseDelay*1, baseDelay*2, ...` (strictly increasing when the base delay
is positive), and the last attempt's error propagates. -/
theorem C5_withRetry_classification (fn : Nat → Except String α)
    (n d : Nat) (hn : 1 ≤ n) :
    (∀ e, fn 0 = Except.error e → isPersistentError e = true →
        withRetry fn n d = ⟨Except.error e, 1, []⟩) ∧
    (∀ m : Nat → String,
        (∀ i, i < n → fn i = Except.error (m i)) →
        (∀ i, i < n → isPersistentError (m i) = false) →
        withRetry fn n d =
          ⟨Except.error (m (n - 1)), n, (List.range' 1 (n - 1)).map (fun j => d * j)⟩) ∧
    (0 < d → ((List.range' 1 (n - 1)).map (fun j => d * j)).Pairwise (· < ·)) := by
  refine ⟨?_, ?_, ?_⟩
  · intro e h0 hp
    obtain ⟨k, rfl⟩ : ∃ k, n = k + 1 := ⟨n - 1, by omega⟩
    simp [withRetry, withRetryGo, h0, hp]
  · intro m hfn htr
    have := withRetryGo_exhaust fn d n m hfn htr n 0 (by omega) (by omega)
    simpa [withRetry] using this
  · intro hd
    refine List.Pairwise.map _ (fun a b hab => ?_) (List.pairwise_lt_range' 1 (n - 1))
    exact mul_lt_mul_of_pos_left hab hd

/-- Concrete instantiation of `C5_withRetry_classification`: an error
containing "404" stops after one attempt; an error containing "timeout"
is retried three times with sleeps 1000 then 2000 ms. -/
theorem C5_withRetry_classification_witness :
    withRetry (fun _ => (Except.error "http 404 not found" : Except String Nat)) 3 1000 =
        ⟨Except.error "http 404 not found", 1, []⟩ ∧
    withRetry (fun _ => (Except.error "timeout" : Except String Nat)) 3 1000 =
        ⟨Except.error "timeout", 3, [1000, 2000]⟩ := by
  constructor
  · exact (C5_withRetry_classification _ 3 1000 (by decide)).1 _ rfl (by decide)
  · have hc : isPersistentError "timeout" = false := by decide
    have h := (C5_withRetry_classification
      (fun _ => (Except.error "timeout" : Except String Nat)) 3 1000 (by decide)).2.1
      (fun _ => "timeout") (fun _ _ => rfl) (fun _ _ => hc)
    simpa [List.range'] using h

/-! ## `RateLimiter` (utils/rateLimiter.js) -/

/-- State of the `RateLimiter` instance: capacity per window, window
length in ms, the recorded call timestamps, and the enabled switch. -/
structure RateLimiterState where
  maxRequestsPerMinute : Nat
  windowSizeMs : Int
  requests : List Int
  enabled : Bool
  deriving Repr, DecidableEq

/-- Model of `Math.min(...list)` for a non-empty list; the empty case
(JS `Infinity`) is unreachable in the callers below, which take the
minimum only when the list length reaches the positive capacity. -/
def listMin : List Int → Int
  | [] => 0
  | x :: xs => xs.foldl min x

/-- Outcome of `canMakeRequest()`: the returned boolean, the pruned
timestamp window it stores back into `this.requests`, and the
`timeToWait` it reports when the limit is hit. -/
structure CanMakeRequestResult where
  allowed : Bool
  newRequests : List Int
  timeToWaitMs : Option Int
  deriving Repr, DecidableEq

/-- Embedding of `RateLimiter.canMakeRequest()` at time `now`. -/
def canMakeRequest (st : RateLimiterState) (now : Int) : CanMakeRequestResult :=
  if !st.enabled then ⟨true, st.requests, none⟩
  else
    let windowStart := now - st.windowSizeMs
    let pruned := st.requests.filter (fun t => decide (windowStart < t))
    if st.maxRequestsPerMinute ≤ pruned.length then
      ⟨false, pruned, some (listMin pruned + st.windowSizeMs - now)⟩
    else
      ⟨true, pruned, none⟩

/-- Embedding of `RateLimiter.recordRequest()` at time `now`. -/
def recordRequest (st : RateLimiterState) (now : Int) : RateLimiterState :=
  if !st.enabled then st else { st with requests := st.requests ++ [now] }

/-- Embedding of the sleep duration computed by one blocked iteration of
`RateLimiter.waitForAvailability()` at time `now`:
`Math.max(1000, oldestRequest + windowSizeMs - now)` over the pruned
window. -/
def waitSleepMs (st : RateLimiterState) (now : Int) : Int :=
  let windowStart := now - st.windowSizeMs
  let pruned := st.requests.filter (fun t => decide (windowStart < t))
  max 1000 (listMin pruned + st.windowSizeMs - now)

/-- C8: `canMakeRequest` keeps exactly the timestamps newer than
`now - W`, succeeds iff fewer than the capacity remain, and on failure
reports the delay `oldest + W - now`; a blocked `waitForAvailability`
iteration sleeps `max(1000, oldest + W - now)`, hence at least
`oldest + W - now` (and at least 1000 ms). -/
theorem C8_rate_limiter (st : RateLimiterState) (now : Int) (hen : st.enabled = true) :
    (∀ t, t ∈ (canMakeRequest st now).newRequests ↔
        t ∈ st.requests ∧ now - st.windowSizeMs < t) ∧
    ((canMakeRequest st now).allowed = true ↔
        (st.requests.filter (fun t => decide (now - st.windowSizeMs < t))).length
          < st.maxRequestsPerMinute) ∧
    ((canMakeRequest st now).allowed = false →
        (canMakeRequest st now).timeToWaitMs =
          some (listMin (st.requests.filter (fun t => decide (now - st.windowSizeMs < t)))
            + st.windowSizeMs - now)) ∧
    listMin (st.requests.filter (fun t => decide (now - st.windowSizeMs < t)))
        + st.windowSizeMs - now ≤ waitSleepMs st now ∧
    1000 ≤ waitSleepMs st now := by
  simp only [canMakeRequest, waitSleepMs, hen, Bool.not_true, Bool.false_eq_true, if_false]
  by_cases hcap :
      st.maxRequestsPerMinute ≤
        (st.requests.filter (fun t => decide (now - st.windowSizeMs < t))).length
  · simp [hcap, List.mem_filter, le_max_right, le_max_left, Nat.not_lt.mpr hcap]
  · simp [hcap, List.mem_filter, le_max_right, le_max_left, Nat.lt_of_not_le hcap]

/-- Concrete instantiation of `C8_rate_limiter`: capacity 2, window
60000 ms, two timestamps already recorded; a third immediate acquire is
refused and blocks for `oldest + 60000 - now = 40000` ms. -/
theorem C8_rate_limiter_witness :
    (canMakeRequest ⟨2, 60000, [10000, 20000], true⟩ 30000).allowed = false ∧
    (canMakeRequest ⟨2, 60000, [10000, 20000], true⟩ 30000).timeToWaitMs =
      some (10000 + 60000 - 30000) ∧
    10000 + 60000 - 30000 ≤ waitSleepMs ⟨2, 60000, [10000, 20000], true⟩ 30000 := by
  have h := C8_rate_limiter ⟨2, 60000, [10000, 20000], true⟩ 30000 rfl
  refine ⟨by decide, ?_, ?_⟩
  · have := h.2.2.1 (by decide)
    simpa using this
  · have := h.2.2.2.1
    simpa using this

/-! ## Data model (supabaseService.js rows) -/

/-- Attendee entry as stored on an appointment row
(`{ email, displayName, responseStatus }`). -/
structure Attendee where
  email : Option String
  displayName : Option String
  responseStatus : Option String
  deriving Repr, DecidableEq

/-- Appointment row of the `appointments` table, with the fields this
service reads and writes.  `google_event_id = none` models SQL NULL
(a locally authored, not yet pushed record). -/
structure Appointment where
  id : Nat
  company_id : Nat
  created_by : String
  created_at : Int
  title : String
  description : Option String
  start_time : Option String
  end_time : Option String
  location : Option String
  google_event_id : Option String
  google_calendar_id : String
  google_meet_link : Option String
  attendees : List Attendee
  all_day : Bool
  status : String
  deriving Repr, DecidableEq

/-- Integration row of the `google_calendar_integrations` table
(the columns selected by `getActiveGoogleCalendarIntegrations`). -/
structure Integration where
  id : Nat
  company_id : Nat
  client_id : String
  client_secret : String
  access_token : Option String
  refresh_token : Option String
  token_expires_at : Int
  calendar_id : String
  sync_token : Option String
  status : String
  deriving Repr, DecidableEq

/-! ## `getUnsyncedLocalAppointments` (Phase A candidate query, supabaseService.js) -/

/-- Embedding of `getUnsyncedLocalAppointments(companyId, googleCalendarId)`
over a table modelled as a list of rows: rows of this company and
calendar whose `google_event_id` IS NULL and whose status is not
`cancelled`, ordered by `created_at` ascending. -/
def getUnsyncedLocalAppointments (companyId : Nat) (googleCalendarId : String)
    (db : List Appointment) : List Appointment :=
  (db.filter (fun a =>
      decide (a.company_id = companyId) &&
      decide (a.google_calendar_id = googleCalendarId) &&
      decide (a.google_event_id = none) &&
      !(decide (a.status = "cancelled")))).mergeSort
    (fun a b => decide (a.created_at ≤ b.created_at))

/-- C3: Phase A's selection returns exactly the appointments of the
integration's tenant and calendar with NULL `google_event_id` and
non-cancelled status; consequently an appointment whose external id is
already set (as `updateAppointmentWithGoogleEventId` does after a push)
is never selected again. -/
theorem C3_phaseA_selection (companyId : Nat) (calId : String) (db : List Appointment) :
    (∀ a, a ∈ getUnsyncedLocalAppointments companyId calId db ↔
        a ∈ db ∧ a.company_id = companyId ∧ a.google_calendar_id = calId ∧
        a.google_event_id = none ∧ a.status ≠ "cancelled") ∧
    (∀ a g, a.google_event_id = some g →
        a ∉ getUnsyncedLocalAppointments companyId calId db) := by
  have hmem : ∀ a, a ∈ getUnsyncedLocalAppointments companyId calId db ↔
      a ∈ db ∧ a.company_id = companyId ∧ a.google_calendar_id = calId ∧
      a.google_event_id = none ∧ a.status ≠ "cancelled" := by
    intro a
    simp [getUnsyncedLocalAppointments, List.mem_filter, and_assoc]
  refine ⟨hmem, fun a g hg hsel => ?_⟩
  have := ((hmem a).mp hsel).2.2.2.1
  rw [hg] at this
  exact Option.noConfusion this

/-- Concrete instantiation of `C3_phaseA_selection`: of two otherwise
identical appointments, the one with `google_event_id = some "g1"` is
not selected and the one with NULL external id is. -/
theorem C3_phaseA_selection_witness :
    (⟨2, 1, "u", 0, "t", none, none, none, none, some "g1", "cal", none, [], false,
        "scheduled"⟩ : Appointment) ∉
      getUnsyncedLocalAppointments 1 "cal"
        [⟨1, 1, "u", 0, "t", none, none, none, none, none, "cal", none, [], false, "scheduled"⟩,
         ⟨2, 1, "u", 0, "t", none, none, none, none, some "g1", "cal", none, [], false,
            "scheduled"⟩] ∧
    (⟨1, 1, "u", 0, "t", none, none, none, none, none, "cal", none, [], false,
        "scheduled"⟩ : Appointment) ∈
      getUnsyncedLocalAppointments 1 "cal"
        [⟨1, 1, "u", 0, "t", none, none, none, none, none, "cal", none, [], false, "scheduled"⟩,
         ⟨2, 1, "u", 0, "t", none, none, none, none, some "g1", "cal", none, [], false,
            "scheduled"⟩] := by
  constructor
  · exact (C3_phaseA_selection 1 "cal" _).2 _ "g1" rfl
  · exact ((C3_phaseA_selection 1 "cal" _).1 _).mpr (by decide)

/-! ## `getSyncedAppointments` and the Phase C orphan-sweep loop -/

/-- Embedding of `getSyncedAppointments(companyId, googleCalendarId)`:
the `googleCalendarId` parameter is accepted (defaulted to `null`) but
never used by the query, which keeps every non-cancelled row of the
company with a non-NULL `google_event_id`, orders by `created_at`
descending, and limits to 100 rows.  (The source selects a subset of
columns; rows are modelled whole.) -/
def getSyncedAppointments (companyId : Nat) (googleCalendarId : Option String)
    (db : List Appointment) : List Appointment :=
  ((db.filter (fun a =>
      decide (a.company_id = companyId) &&
      !(decide (a.google_event_id = none)) &&
      !(decide (a.status = "cancelled")))).mergeSort
    (fun a b => decide (b.created_at ≤ a.created_at))).take 100

/-- One existence probe issued by the orphan sweep:
`checkGoogleEventExists(appointment.google_event_id, integration.calendar_id, ...)`. -/
structure ProbeCall where
  googleEventId : Option String
  calendarId : String
  deriving Repr, DecidableEq

/-- Outcome of the orphan-sweep loop: the probes issued, and the ids of
the appointments cancelled via `cancelAppointment`. -/
structure SweepResult where
  probes : List ProbeCall
  cancelledIds : List Nat
  deriving Repr, DecidableEq

/-- Embedding of the `for (const appointment of appointmentsWithGoogleId)`
loop of `cleanupOrphanedAppointments`.  `probe a` is the outcome of
`checkGoogleEventExists` for `a`: `ok false` means the remote event is
gone (the local record is cancelled), `ok true` means it still exists
(no action), and a thrown error is caught, logged, and the item skipped. -/
def cleanupOrphanSweepLoop (probe : Appointment → Except String Bool)
    (calId : String) : List Appointment → SweepResult
  | [] => ⟨[], []⟩
  | a :: rest =>
    let r := cleanupOrphanSweepLoop probe calId rest
    match probe a with
    | Except.ok false => ⟨⟨a.google_event_id, calId⟩ :: r.probes, a.id :: r.cancelledIds⟩
    | Except.ok true => ⟨⟨a.google_event_id, calId⟩ :: r.probes, r.cancelledIds⟩
    | Except.error _ => ⟨⟨a.google_event_id, calId⟩ :: r.probes, r.cancelledIds⟩

/-- Phase C sweep, on a cycle where the probabilistic throttle lets it
run: fetch the candidates and run the loop, probing each candidate
against the integration's own `calendar_id`. -/
def cleanupOrphanedAppointmentsSweep (companyId : Nat) (integCalId : String)
    (db : List Appointment) (probe : Appointment → Except String Bool) : SweepResult :=
  cleanupOrphanSweepLoop probe integCalId
    (getSyncedAppointments companyId (some integCalId) db)

/-- Helper: the sweep loop probes each candidate exactly once, against
the calendar id it was given. -/
theorem cleanupOrphanSweepLoop_probes (probe : Appointment → Except String Bool)
    (calId : String) :
    ∀ items, (cleanupOrphanSweepLoop probe calId items).probes =
      items.map (fun a => ⟨a.google_event_id, calId⟩) := by
  intro items
  induction items with
  | nil => rfl
  | cons a rest ih =>
    cases h : probe a with
    | ok b => cases b <;> simp [cleanupOrphanSweepLoop, h, ih]
    | error e => simp [cleanupOrphanSweepLoop, h, ih]

/-- Helper: the sweep loop cancels exactly the candidates whose probe
returned `ok false`. -/
theorem cleanupOrphanSweepLoop_cancelled (probe : Appointment → Except String Bool)
    (calId : String) :
    ∀ items id, id ∈ (cleanupOrphanSweepLoop probe calId items).cancelledIds ↔
      ∃ a, a ∈ items ∧ a.id = id ∧ probe a = Except.ok false := by
  intro items
  induction items with
  | nil => intro id; simp [cleanupOrphanSweepLoop]
  | cons a rest ih =>
    intro id
    cases h : probe a with
    | ok b =>
      cases b with
      | false =>
        simp only [cleanupOrphanSweepLoop, h, List.mem_cons, ih]
        constructor
        · rintro (rfl | ⟨b, hb, rfl, hpb⟩)
          · exact ⟨a, Or.inl rfl, rfl, h⟩
          · exact ⟨b, Or.inr hb, rfl, hpb⟩
        · rintro ⟨b, rfl | hb, rfl, hpb⟩
          · exact Or.inl rfl
          · exact Or.inr ⟨b, hb, rfl, hpb⟩
      | true =>
        simp only [cleanupOrphanSweepLoop, h, ih]
        constructor
        · rintro ⟨b, hb, rfl, hpb⟩
          exact ⟨b, List.mem_cons_of_mem a hb, rfl, hpb⟩
        · rintro ⟨b, hb, rfl, hpb⟩
          rcases List.mem_cons.mp hb with rfl | hb
          · rw [h] at hpb; cases hpb
          · exact ⟨b, hb, rfl, hpb⟩
    | error e =>
      simp only [cleanupOrphanSweepLoop, h, ih]
      constructor
      · rintro ⟨b, hb, rfl, hpb⟩
        exact ⟨b, List.mem_cons_of_mem a hb, rfl, hpb⟩
      · rintro ⟨b, hb, rfl, hpb⟩
        rcases List.mem_cons.mp hb with rfl | hb
        · rw [h] at hpb; cases hpb
        · exact ⟨b, hb, rfl, hpb⟩

/-- C10: the orphan-sweep candidate query ignores its `googleCalendarId`
argument — it returns the same rows for any argument value: at most 100
rows, exactly the company's non-cancelled appointments with a non-NULL
external id, most-recently-created first; consequently one sweep probes
at most 100 records, and every probe is issued against the current
integration's calendar id, including for appointments stored under a
different calendar. -/
theorem C10_synced_query_ignores_calendar (companyId : Nat) (g1 g2 : Option String)
    (db : List Appointment) (integCalId : String)
    (probe : Appointment → Except String Bool) :
    getSyncedAppointments companyId g1 db = getSyncedAppointments companyId g2 db ∧
    (getSyncedAppointments companyId g1 db).length ≤ 100 ∧
    (∀ a, a ∈ getSyncedAppointments companyId g1 db →
        a ∈ db ∧ a.company_id = companyId ∧ a.google_event_id ≠ none ∧
        a.status ≠ "cancelled") ∧
    (getSyncedAppointments companyId g1 db).Pairwise
      (fun a b => b.created_at ≤ a.created_at) ∧
    (cleanupOrphanedAppointmentsSweep companyId integCalId db probe).probes =
      (getSyncedAppointments companyId (some integCalId) db).map
        (fun a => ⟨a.google_event_id, integCalId⟩) ∧
    (∀ p, p ∈ (cleanupOrphanedAppointmentsSweep companyId integCalId db probe).probes →
        p.calendarId = integCalId) := by
  refine ⟨rfl, List.length_take_le _ _, ?_, ?_, ?_, ?_⟩
  · intro a ha
    have ha2 := List.mem_of_mem_take ha
    rw [List.mem_mergeSort] at ha2
    have := List.mem_filter.mp ha2
    refine ⟨this.1, ?_⟩
    have hp := this.2
    simp only [Bool.and_eq_true, Bool.not_eq_true', decide_eq_true_eq,
      decide_eq_false_iff_not] at hp
    exact ⟨hp.1.1, hp.1.2, hp.2⟩
  · have hs := @List.sorted_mergeSort Appointment
      (fun a b : Appointment => decide (b.created_at ≤ a.created_at))
      (fun a b c hab hbc => by
        simp only [decide_eq_true_eq] at hab hbc ⊢
        exact le_trans hbc hab)
      (fun a b => by
        simp only [Bool.or_eq_true, decide_eq_true_eq]
        exact le_total b.created_at a.created_at)
      (db.filter (fun a =>
        decide (a.company_id = companyId) &&
        !(decide (a.google_event_id = none)) &&
        !(decide (a.status = "cancelled"))))
    have htake := List.Pairwise.sublist (List.take_sublist 100 _) hs
    simp only [getSyncedAppointments]
    exact htake.imp (fun h => by simpa using h)
  · exact cleanupOrphanSweepLoop_probes probe integCalId _
  · intro p hp
    simp only [cleanupOrphanedAppointmentsSweep, cleanupOrphanSweepLoop_probes] at hp
    rcases List.mem_map.mp hp with ⟨a, _, rfl⟩
    rfl

/-- Sample table for the orphan-sweep instantiations: one company with
two synced appointments stored under two different calendars. -/
def sweepSampleDb : List Appointment :=
  [⟨1, 1, "u", 10, "A", none, none, none, none, some "gA", "calA", none, [], false, "scheduled"⟩,
   ⟨2, 1, "u", 20, "B", none, none, none, none, some "gB", "calB", none, [], false, "scheduled"⟩]

/-- Concrete instantiation of `C10_synced_query_ignores_calendar`: the
query result is identical for calendar arguments "calA" and "calB", and
the appointment stored under "calB" is probed against "calA". -/
theorem C10_synced_query_ignores_calendar_witness :
    getSyncedAppointments 1 (some "calA") sweepSampleDb =
      getSyncedAppointments 1 (some "calB") sweepSampleDb ∧
    (getSyncedAppointments 1 (some "calA") sweepSampleDb).length ≤ 100 ∧
    (⟨2, 1, "u", 20, "B", none, none, none, none, some "gB", "calB", none, [], false,
        "scheduled"⟩ : Appointment) ∈ sweepSampleDb ∧
    ProbeCall.calendarId ⟨some "gB", "calA"⟩ = "calA" := by
  have h := C10_synced_query_ignores_calendar 1 (some "calA") (some "calB") sweepSampleDb
    "calA" (fun _ => Except.ok true)
  have hmemB : (⟨2, 1, "u", 20, "B", none, none, none, none, some "gB", "calB", none, [],
      false, "scheduled"⟩ : Appointment) ∈
      getSyncedAppointments 1 (some "calA") sweepSampleDb := by
    rw [getSyncedAppointments, List.take_of_length_le (by simp; decide)]
    rw [List.mem_mergeSort]
    decide
  refine ⟨h.1, h.2.1, ?_, ?_⟩
  · exact (h.2.2.1 _ hmemB).1
  · refine h.2.2.2.2.2 _ ?_
    rw [h.2.2.2.2.1]
    exact List.mem_map.mpr ⟨_, hmemB, rfl⟩

/-! ## `checkGoogleEventExists` (Phase C existence probe) -/

/-- Model of the `fetch` `Response.ok` flag: status in [200, 300). -/
def respOk (status : Nat) : Bool := decide (200 ≤ status) && decide (status < 300)

/-- Error message built by the probe for a non-ok status. -/
def googleApiErrorMsg (status : Nat) (errText : String) : String :=
  "Google Calendar API error: " ++ toString status ++ " - " ++ errText

/-- Embedding of one attempt of the `checkGoogleEventExists` body, as a
function of the probe's HTTP status: 404 and 410 mean the event is gone
(return `false`), any other non-ok status throws, an ok status returns
`true`. -/
def checkGoogleEventExistsOnce (status : Nat) (errText : String) : Except String Bool :=
  if status = 404 then Except.ok false
  else if status = 410 then Except.ok false
  else if respOk status = false then Except.error (googleApiErrorMsg status errText)
  else Except.ok true

/-- Embedding of `checkGoogleEventExists`, which runs the probe body
under `withRetry`; the remote returns the same HTTP status on every
attempt. -/
def checkGoogleEventExists (status : Nat) (errText : String) (maxRetries retryDelay : Nat) :
    RetryResult Bool :=
  withRetry (fun _ => checkGoogleEventExistsOnce status errText) maxRetries retryDelay

/-- Helper: a first attempt that succeeds ends `withRetry` immediately. -/
theorem withRetry_first_ok (fn : Nat → Except String α) (n d : Nat) (hn : 1 ≤ n)
    (a : α) (h0 : fn 0 = Except.ok a) : withRetry fn n d = ⟨Except.ok a, 1, []⟩ := by
  obtain ⟨k, rfl⟩ : ∃ k, n = k + 1 := ⟨n - 1, by omega⟩
  rw [withRetry, withRetryGo_succ, h0]

/-- Helper: if every attempt fails with the same error, `withRetry`'s
final outcome is that error, whether it is classified persistent (break
at once) or transient (retried until exhaustion). -/
theorem withRetryGo_const_error (fn : Nat → Except String α) (d n : Nat) (e : String)
    (hfn : ∀ i, i < n → fn i = Except.error e) :
    ∀ rem i, 0 < rem → i + rem = n → (withRetryGo fn d n rem i).result = Except.error e := by
  intro rem
  induction rem with
  | zero => intro i h; exact absurd h (by omega)
  | succ k ih =>
    intro i _ hin
    rw [withRetryGo_succ, hfn i (by omega)]
    by_cases hc : (isPersistentError e || (i == n - 1)) = true
    · simp [hc]
    · have hik : ¬ (i = n - 1) := by
        intro hi
        exact hc (by simp [hi])
      have hk : 0 < k := by omega
      simp only [Bool.not_eq_true] at hc
      simp [hc]
      exact ih (i + 1) hk (by omega)

/-- C4: the existence probe returns `false` exactly when the HTTP status
is 404 or 410, returns `true` on an ok status, and throws (after the
retry wrapper) on any other non-ok status; and the sweep loop cancels a
record iff its probe returned `false`, while probe errors are caught and
the item skipped without cancellation. -/
theorem C4_orphan_probe_and_sweep (status : Nat) (errText : String) (n d : Nat)
    (hn : 1 ≤ n) (calId : String) (items : List Appointment)
    (probe : Appointment → Except String Bool) :
    ((checkGoogleEventExists status errText n d).result = Except.ok false ↔
        status = 404 ∨ status = 410) ∧
    (respOk status = true →
        checkGoogleEventExists status errText n d = ⟨Except.ok true, 1, []⟩) ∧
    (status ≠ 404 → status ≠ 410 → respOk status = false →
        (checkGoogleEventExists status errText n d).result =
          Except.error (googleApiErrorMsg status errText)) ∧
    (∀ i, i ∈ (cleanupOrphanSweepLoop probe calId items).cancelledIds ↔
        ∃ a, a ∈ items ∧ a.id = i ∧ probe a = Except.ok false) := by
  have honceGone : status = 404 ∨ status = 410 →
      checkGoogleEventExistsOnce status errText = Except.ok false := by
    rintro (rfl | rfl) <;> rfl
  have hfull2 : respOk status = true →
      checkGoogleEventExists status errText n d = ⟨Except.ok true, 1, []⟩ := by
    intro hro
    have h1 : status ≠ 404 := fun h => absurd (h ▸ hro) (by decide)
    have h2 : status ≠ 410 := fun h => absurd (h ▸ hro) (by decide)
    exact withRetry_first_ok _ n d hn true
      (by simp [checkGoogleEventExistsOnce, h1, h2, hro])
  have hfull3 : status ≠ 404 → status ≠ 410 → respOk status = false →
      (checkGoogleEventExists status errText n d).result =
        Except.error (googleApiErrorMsg status errText) := by
    intro h1 h2 hro
    exact withRetryGo_const_error _ d n _
      (fun i _ => by simp [checkGoogleEventExistsOnce, h1, h2, hro]) n 0 (by omega) (by omega)
  refine ⟨?_, hfull2, hfull3, cleanupOrphanSweepLoop_cancelled probe calId items⟩
  constructor
  · intro hres
    by_cases h1 : status = 404
    · exact Or.inl h1
    by_cases h2 : status = 410
    · exact Or.inr h2
    by_cases hro : respOk status = true
    · rw [hfull2 hro] at hres
      cases hres
    · rw [hfull3 h1 h2 (by simpa using hro)] at hres
      cases hres
  · intro hgone
    have hfo := withRetry_first_ok (fun _ => checkGoogleEventExistsOnce status errText) n d hn
      false (honceGone hgone)
    rw [checkGoogleEventExists, hfo]

/-- Sweep candidates for the probe instantiation: three synced
appointments whose probes will return gone (404/410), a transient error,
and success respectively. -/
def sweepSampleProbeItems : List Appointment :=
  [⟨1, 1, "u", 0, "a1", none, none, none, none, some "e1", "calA", none, [], false, "scheduled"⟩,
   ⟨2, 1, "u", 0, "a2", none, none, none, none, some "e2", "calA", none, [], false, "scheduled"⟩,
   ⟨3, 1, "u", 0, "a3", none, none, none, none, some "e3", "calA", none, [], false, "scheduled"⟩]

/-- Concrete instantiation of `C4_orphan_probe_and_sweep`: a 410 probe
reports the event gone, a 500 probe throws, and in a sweep over three
records the 410 one is cancelled while the 500 (transient error) and 200
ones are not. -/
theorem C4_orphan_probe_and_sweep_witness :
    (checkGoogleEventExists 410 "gone" 3 1000).result = Except.ok false ∧
    (checkGoogleEventExists 500 "boom" 3 1000).result =
      Except.error (googleApiErrorMsg 500 "boom") ∧
    1 ∈ (cleanupOrphanSweepLoop
        (fun a => if a.id = 1 then Except.ok false
          else if a.id = 2 then Except.error "Google Calendar API error: 500 - boom"
          else Except.ok true)
        "calA" sweepSampleProbeItems).cancelledIds ∧
    (cleanupOrphanSweepLoop
        (fun a => if a.id = 1 then Except.ok false
          else if a.id = 2 then Except.error "Google Calendar API error: 500 - boom"
          else Except.ok true)
        "calA" sweepSampleProbeItems).cancelledIds = [1] := by
  refine ⟨?_, ?_, ?_, by decide⟩
  · exact (C4_orphan_probe_and_sweep 410 "gone" 3 1000 (by decide) "calA" [] (fun _ =>
      Except.ok true)).1.mpr (Or.inr rfl)
  · exact (C4_orphan_probe_and_sweep 500 "boom" 3 1000 (by decide) "calA" [] (fun _ =>
      Except.ok true)).2.2.1 (by decide) (by decide) (by decide)
  · refine ((C4_orphan_probe_and_sweep 200 "" 3 1000 (by decide) "calA"
      sweepSampleProbeItems _).2.2.2 1).mpr ?_
    refine ⟨⟨1, 1, "u", 0, "a1", none, none, none, none, some "e1", "calA", none, [], false,
      "scheduled"⟩, by decide, rfl, by decide⟩

/-! ## `ensureValidToken` and `updateIntegrationTokens` -/

/-- Body of the token endpoint's refresh-grant response: new access
token, optionally rotated refresh token, expiry duration in seconds. -/
structure TokenRefreshResponse where
  access_token : String
  refresh_token : Option String
  expires_in : Int
  deriving Repr, DecidableEq

/-- Embedding of `updateIntegrationTokens(integrationId, tokens)`:
writes the access token, the provided refresh token (a JS `undefined`
refresh token, modelled `none`, leaves the stored column untouched), and
`token_expires_at = now + expires_in * 1000`. -/
def updateIntegrationTokens (integ : Integration) (now : Int)
    (tokens : TokenRefreshResponse) : Integration :=
  { integ with
    access_token := some tokens.access_token
    refresh_token := match tokens.refresh_token with
      | some r => some r
      | none => integ.refresh_token
    token_expires_at := now + tokens.expires_in * 1000 }

/-- Outcome of `ensureValidToken`: whether a refresh-grant call was
issued, the returned access token (or the thrown error), and the
integration row as persisted afterwards. -/
structure EnsureTokenResult where
  refreshCalled : Bool
  outcome : Except String String
  newIntegration : Integration
  deriving Repr, DecidableEq

/-- Embedding of `ensureValidToken(integration)` at time `now`;
`refreshCall` is the outcome of `refreshAccessToken` when it is invoked.
The comparison `expiresAt <= fiveMinutesFromNow` becomes
`token_expires_at ≤ now + 5*60*1000`.  On refresh, the caller passes
`newTokens.refresh_token || integration.refresh_token` down to
`updateIntegrationTokens`. -/
def ensureValidToken (integ : Integration) (now : Int)
    (refreshCall : Except String TokenRefreshResponse) : EnsureTokenResult :=
  match integ.access_token with
  | none => ⟨false, Except.error "No access token available", integ⟩
  | some tok =>
    if integ.token_expires_at ≤ now + 5 * 60 * 1000 then
      match integ.refresh_token with
      | none => ⟨false, Except.error "No refresh token available", integ⟩
      | some rt =>
        match refreshCall with
        | Except.error e => ⟨true, Except.error e, integ⟩
        | Except.ok newTokens =>
          ⟨true, Except.ok newTokens.access_token,
            updateIntegrationTokens integ now
              { newTokens with refresh_token :=
                  match newTokens.refresh_token with
                  | some r => some r
                  | none => some rt }⟩
    else ⟨false, Except.ok tok, integ⟩

/-- C6: given a stored access token and a stored refresh token, a
refresh-grant call is issued iff `token_expires_at - now ≤ 5` minutes;
without refresh the stored access token is returned and nothing is
written; with refresh the new access token, the rotated refresh token
(or the old one when none is returned) and the new expiry are persisted
and the fresh token returned; and a needed refresh without a stored
refresh token fails with an error and issues no refresh-grant call. -/
theorem C6_ensure_valid_token (integ : Integration) (now : Int)
    (refreshCall : Except String TokenRefreshResponse) (tok : String)
    (htok : integ.access_token = some tok) :
    (∀ rt, integ.refresh_token = some rt →
        ((ensureValidToken integ now refreshCall).refreshCalled = true ↔
          integ.token_expires_at - now ≤ 5 * 60 * 1000)) ∧
    (¬ (integ.token_expires_at - now ≤ 5 * 60 * 1000) →
        ensureValidToken integ now refreshCall = ⟨false, Except.ok tok, integ⟩) ∧
    (∀ rt newTokens, integ.refresh_token = some rt →
        integ.token_expires_at - now ≤ 5 * 60 * 1000 →
        refreshCall = Except.ok newTokens →
        ensureValidToken integ now refreshCall =
          ⟨true, Except.ok newTokens.access_token,
            { integ with
              access_token := some newTokens.access_token
              refresh_token := match newTokens.refresh_token with
                | some r => some r
                | none => some rt
              token_expires_at := now + newTokens.expires_in * 1000 }⟩) ∧
    (integ.refresh_token = none →
        integ.token_expires_at - now ≤ 5 * 60 * 1000 →
        ensureValidToken integ now refreshCall =
          ⟨false, Except.error "No refresh token available", integ⟩) := by
  have hcond : (integ.token_expires_at ≤ now + 5 * 60 * 1000) ↔
      (integ.token_expires_at - now ≤ 5 * 60 * 1000) := by omega
  refine ⟨?_, ?_, ?_, ?_⟩
  · intro rt hrt
    by_cases h : integ.token_expires_at ≤ now + 5 * 60 * 1000
    · simp only [ensureValidToken, htok, hrt, if_pos h]
      cases refreshCall <;> simp <;> omega
    · simp only [ensureValidToken, htok, hrt, if_neg h]
      simp only [Bool.false_eq_true, false_iff]
      intro habs
      exact h (hcond.mpr habs)
  · intro h
    have hc : ¬ (integ.token_expires_at ≤ now + 300000) := by omega
    simp [ensureValidToken, htok, hc]
  · intro rt newTokens hrt hle hrc
    have hc : integ.token_expires_at ≤ now + 300000 := by omega
    cases hnt : newTokens.refresh_token <;>
      simp [ensureValidToken, htok, hrt, hrc, hc, hnt, updateIntegrationTokens]
  · intro hrt hle
    have hc : integ.token_expires_at ≤ now + 300000 := by omega
    simp [ensureValidToken, htok, hrt, hc]

/-- Concrete instantiation of `C6_ensure_valid_token`: with `now = 0`,
an expiry 4 minutes away (240000 ms) triggers the refresh-grant call and
persists the rotated tokens, while an expiry 6 minutes away (360000 ms)
does not refresh and returns the stored access token unchanged. -/
theorem C6_ensure_valid_token_witness :
    (ensureValidToken
        ⟨1, 1, "cid", "sec", some "oldAccess", some "oldRefresh", 240000, "cal", none,
          "connected"⟩ 0
        (Except.ok ⟨"newAccess", some "newRefresh", 3600⟩)).refreshCalled = true ∧
    ensureValidToken
        ⟨1, 1, "cid", "sec", some "oldAccess", some "oldRefresh", 240000, "cal", none,
          "connected"⟩ 0
        (Except.ok ⟨"newAccess", some "newRefresh", 3600⟩) =
      ⟨true, Except.ok "newAccess",
        ⟨1, 1, "cid", "sec", some "newAccess", some "newRefresh", 3600000, "cal", none,
          "connected"⟩⟩ ∧
    ensureValidToken
        ⟨1, 1, "cid", "sec", some "oldAccess", some "oldRefresh", 360000, "cal", none,
          "connected"⟩ 0
        (Except.ok ⟨"newAccess", some "newRefresh", 3600⟩) =
      ⟨false, Except.ok "oldAccess",
        ⟨1, 1, "cid", "sec", some "oldAccess", some "oldRefresh", 360000, "cal", none,
          "connected"⟩⟩ := by
  refine ⟨?_, ?_, ?_⟩
  · exact ((C6_ensure_valid_token _ 0 _ "oldAccess" rfl).1 "oldRefresh" rfl).mpr (by decide)
  · exact (C6_ensure_valid_token _ 0 _ "oldAccess" rfl).2.2.1 "oldRefresh"
      ⟨"newAccess", some "newRefresh", 3600⟩ rfl (by decide) rfl
  · exact (C6_ensure_valid_token _ 0 _ "oldAccess" rfl).2.1 (by decide)

/-! ## Google event payloads and Phase B (`syncGoogleEventsToLocal`) -/

/-- Start/end component of a remote event: `dateTime` is present for
timed events, only `date` for all-day events. -/
structure GEventTime where
  dateTime : Option String
  date : Option String
  deriving Repr, DecidableEq

/-- Attendee entry of a remote event. -/
structure GoogleAttendee where
  email : Option String
  displayName : Option String
  responseStatus : Option String
  deriving Repr, DecidableEq

/-- Remote event as consumed by `processGoogleEvent` /
`upsertAppointmentFromGoogleEvent`.  `organizer_email` models
`organizer?.email`, `conference_link` models
`conferenceData?.entryPoints?.[0]?.uri`, and `attendees = none` models a
missing attendee array.  `endTime` is the source's `end` field (a Lean
keyword). -/
structure GoogleEvent where
  id : String
  status : String
  summary : Option String
  description : Option String
  start : GEventTime
  endTime : GEventTime
  location : Option String
  organizer_email : Option String
  conference_link : Option String
  attendees : Option (List GoogleAttendee)
  deriving Repr, DecidableEq

/-- Response of the events listing call: the items and the optional
`nextSyncToken`. -/
structure EventsResponse where
  items : List GoogleEvent
  nextSyncToken : Option String
  deriving Repr, DecidableEq

/-- Embedding of `processGoogleEvent(companyId, event)` at the
error-propagation granularity Phase B's loop depends on: `itemBody e`
is the outcome of the handler body for `e` (cancel lookup or upsert);
the surrounding `try/catch` logs any thrown error and returns normally,
so the call itself never throws. -/
def processGoogleEventCaught (itemBody : GoogleEvent → Except String Unit)
    (e : GoogleEvent) : Except String Unit :=
  match itemBody e with
  | Except.ok _ => Except.ok ()
  | Except.error _ => Except.ok ()

/-- Embedding of Phase B's `for (const event of eventsData.items)` loop,
counting `eventsProcessed`; a thrown `processGoogleEvent` would abort
the loop (modelled by the error branch), but `processGoogleEventCaught`
never throws. -/
def syncEventsLoop (itemBody : GoogleEvent → Except String Unit) :
    List GoogleEvent → Except String Nat
  | [] => Except.ok 0
  | e :: rest =>
    match processGoogleEventCaught itemBody e with
    | Except.error err => Except.error err
    | Except.ok _ =>
      match syncEventsLoop itemBody rest with
      | Except.error err => Except.error err
      | Except.ok n => Except.ok (n + 1)

/-- Embedding of `updateIntegrationSyncData(integrationId, syncData)`:
stores the provided `sync_token`, unconditionally replacing the prior
value. -/
def updateIntegrationSyncData (integ : Integration) (tok : String) : Integration :=
  { integ with sync_token := some tok }

/-- Outcome of one Phase B pass: the integration row afterwards, how
many times the cursor was persisted, and the returned event count (or
the thrown error). -/
structure PullResult where
  integration : Integration
  persistCalls : Nat
  outcome : Except String Nat
  deriving Repr, DecidableEq

/-- Embedding of `syncGoogleEventsToLocal(integration, accessToken)`
given the listing response `resp`: process every item, then persist the
cursor once iff the response carries a `nextSyncToken`. -/
def syncGoogleEventsToLocal (integ : Integration) (resp : EventsResponse)
    (itemBody : GoogleEvent → Except String Unit) : PullResult :=
  match syncEventsLoop itemBody resp.items with
  | Except.error e => ⟨integ, 0, Except.error e⟩
  | Except.ok n =>
    match resp.nextSyncToken with
    | some t => ⟨updateIntegrationSyncData integ t, 1, Except.ok n⟩
    | none => ⟨integ, 0, Except.ok n⟩

/-- Helper: the Phase B loop never aborts — every item is processed
(whatever the per-item outcomes), and the count equals the item count. -/
theorem syncEventsLoop_total (itemBody : GoogleEvent → Except String Unit) :
    ∀ items, syncEventsLoop itemBody items = Except.ok items.length := by
  intro items
  induction items with
  | nil => rfl
  | cons e rest ih =>
    cases h : itemBody e <;>
      simp [syncEventsLoop, processGoogleEventCaught, h, ih]

/-- C2: in a Phase B pass whose response carries a `nextSyncToken`,
every item is processed despite any per-item failures (the handler
catches them), and exactly one cursor persist occurs, unconditionally
replacing the stored `sync_token`; if the response carries no
`nextSyncToken`, the stored cursor is left unchanged and no persist
occurs. -/
theorem C2_cursor_persistence (integ : Integration) (resp : EventsResponse)
    (itemBody : GoogleEvent → Except String Unit) :
    (∀ t, resp.nextSyncToken = some t →
        syncGoogleEventsToLocal integ resp itemBody =
          ⟨{ integ with sync_token := some t }, 1, Except.ok resp.items.length⟩) ∧
    (resp.nextSyncToken = none →
        syncGoogleEventsToLocal integ resp itemBody =
          ⟨integ, 0, Except.ok resp.items.length⟩) := by
  constructor
  · intro t ht
    simp [syncGoogleEventsToLocal, syncEventsLoop_total, ht, updateIntegrationSyncData]
  · intro ht
    simp [syncGoogleEventsToLocal, syncEventsLoop_total, ht]

/-- Concrete instantiation of `C2_cursor_persistence`: a pass with two
items whose handlers both fail still processes both and replaces the
prior cursor "old" by "T2" in exactly one persist; the same pass without
a `nextSyncToken` leaves the cursor at "old". -/
theorem C2_cursor_persistence_witness :
    syncGoogleEventsToLocal
        ⟨1, 1, "cid", "sec", some "at", some "rt", 0, "cal", some "old", "connected"⟩
        ⟨[⟨"e1", "confirmed", none, none, ⟨none, some "2024-01-01"⟩, ⟨none, some "2024-01-02"⟩,
            none, none, none, none⟩,
          ⟨"e2", "confirmed", none, none, ⟨none, some "2024-01-03"⟩, ⟨none, some "2024-01-04"⟩,
            none, none, none, none⟩], some "T2"⟩
        (fun _ => Except.error "database write failed") =
      ⟨⟨1, 1, "cid", "sec", some "at", some "rt", 0, "cal", some "T2", "connected"⟩, 1,
        Except.ok 2⟩ ∧
    syncGoogleEventsToLocal
        ⟨1, 1, "cid", "sec", some "at", some "rt", 0, "cal", some "old", "connected"⟩
        ⟨[⟨"e1", "confirmed", none, none, ⟨none, some "2024-01-01"⟩, ⟨none, some "2024-01-02"⟩,
            none, none, none, none⟩], none⟩
        (fun _ => Except.error "database write failed") =
      ⟨⟨1, 1, "cid", "sec", some "at", some "rt", 0, "cal", some "old", "connected"⟩, 0,
        Except.ok 1⟩ := by
  constructor
  · exact (C2_cursor_persistence _ _ _).1 "T2" rfl
  · exact (C2_cursor_persistence _ _ _).2 rfl

/-! ## `upsertAppointmentFromGoogleEvent` (Phase B upsert row) -/

/-- Model of JS `a || b` on the optional string fields used by the
upsert (the empty-string falsy corner is not exercised by these
fields). -/
def jsOr (a b : Option String) : Option String :=
  match a with
  | some x => some x
  | none => b

/-- Embedding of `parseAttendees(googleAttendees)`: a missing array
yields `[]`, otherwise each entry is mapped to
`{ email, displayName, responseStatus }`. -/
def parseAttendees : Option (List GoogleAttendee) → List Attendee
  | none => []
  | some l => l.map (fun att => ⟨att.email, att.displayName, att.responseStatus⟩)

/-- Embedding of the appointment row written by
`upsertAppointmentFromGoogleEvent(companyId, googleEvent)` through
`upsertAppointment`.  `existing` is the row found by
`getAppointmentByGoogleEventId`; on an update the source copies `id`,
`created_by` and `created_at` from it.  `dbNewId` and `dbNow` stand for
the id and creation timestamp the database assigns on a create, and
`adminUser` for the `getCompanyAdminUser` outcome used by the
`created_by` fallback of `upsertAppointment`. -/
def upsertAppointmentFromGoogleEvent (companyId : Nat) (existing : Option Appointment)
    (e : GoogleEvent) (dbNewId : Nat) (dbNow : Int) (adminUser : Option String) :
    Appointment :=
  { id := match existing with
      | some a => a.id
      | none => dbNewId
    company_id := companyId
    created_by := match existing with
      | some a => a.created_by
      | none => adminUser.getD "00000000-0000-0000-0000-000000000000"
    created_at := match existing with
      | some a => a.created_at
      | none => dbNow
    title := e.summary.getD "Evento sem título"
    description := e.description
    start_time := jsOr e.start.dateTime e.start.date
    end_time := jsOr e.endTime.dateTime e.endTime.date
    location := e.location
    google_event_id := some e.id
    google_calendar_id := e.organizer_email.getD "primary"
    google_meet_link := e.conference_link
    attendees := parseAttendees e.attendees
    all_day := decide (e.start.dateTime = none)
    status := "scheduled" }

/-- C9 fails as stated: the upsert row for a matched active event does
not overwrite only the listed mutable fields — here it also changes
`google_calendar_id` (from the stored "cal-local" to the organizer
default "primary") and `status` (from "cancelled" back to "scheduled"),
two fields outside the claim's list. -/
theorem C9_counterexample :
    (upsertAppointmentFromGoogleEvent 1
        (some ⟨5, 1, "owner", 100, "Old", none, none, none, none, some "g1", "cal-local",
          none, [], false, "cancelled"⟩)
        ⟨"g1", "confirmed", some "New", none, ⟨some "2024-01-01T10:00:00Z", none⟩,
          ⟨some "2024-01-01T11:00:00Z", none⟩, none, none, none, none⟩
        0 0 none).google_calendar_id = "primary" ∧
    "primary" ≠ "cal-local" ∧
    (upsertAppointmentFromGoogleEvent 1
        (some ⟨5, 1, "owner", 100, "Old", none, none, none, none, some "g1", "cal-local",
          none, [], false, "cancelled"⟩)
        ⟨"g1", "confirmed", some "New", none, ⟨some "2024-01-01T10:00:00Z", none⟩,
          ⟨some "2024-01-01T11:00:00Z", none⟩, none, none, none, none⟩
        0 0 none).status = "scheduled" ∧
    "scheduled" ≠ "cancelled" := by
  refine ⟨rfl, by decide, rfl, by decide⟩

/-- C9 amended: for a matched active event the upsert row preserves the
existing record's `id`, `created_by` and `created_at`, sets the mutable
fields (title with its default, description, start/end time with the
all-day date fallback, location, meeting link, parsed attendee list,
and the all-day flag derived from the absence of `start.dateTime`) from
the event, and additionally writes `status = "scheduled"` and
`google_calendar_id` = the event's organizer email (default "primary"),
which may differ from the stored values. -/
theorem C9_upsert_update_fields (companyId dbNewId : Nat) (dbNow : Int)
    (adminUser : Option String) (a : Appointment) (e : GoogleEvent) :
    (upsertAppointmentFromGoogleEvent companyId (some a) e dbNewId dbNow adminUser).id
        = a.id ∧
    (upsertAppointmentFromGoogleEvent companyId (some a) e dbNewId dbNow adminUser).created_by
        = a.created_by ∧
    (upsertAppointmentFromGoogleEvent companyId (some a) e dbNewId dbNow adminUser).created_at
        = a.created_at ∧
    (upsertAppointmentFromGoogleEvent companyId (some a) e dbNewId dbNow adminUser).title
        = e.summary.getD "Evento sem título" ∧
    (upsertAppointmentFromGoogleEvent companyId (some a) e dbNewId dbNow adminUser).description
        = e.description ∧
    (upsertAppointmentFromGoogleEvent companyId (some a) e dbNewId dbNow adminUser).start_time
        = jsOr e.start.dateTime e.start.date ∧
    (upsertAppointmentFromGoogleEvent companyId (some a) e dbNewId dbNow adminUser).end_time
        = jsOr e.endTime.dateTime e.endTime.date ∧
    (upsertAppointmentFromGoogleEvent companyId (some a) e dbNewId dbNow adminUser).location
        = e.location ∧
    (upsertAppointmentFromGoogleEvent companyId (some a) e dbNewId dbNow
        adminUser).google_meet_link = e.conference_link ∧
    (upsertAppointmentFromGoogleEvent companyId (some a) e dbNewId dbNow adminUser).attendees
        = parseAttendees e.attendees ∧
    (upsertAppointmentFromGoogleEvent companyId (some a) e dbNewId dbNow adminUser).all_day
        = decide (e.start.dateTime = none) ∧
    (upsertAppointmentFromGoogleEvent companyId (some a) e dbNewId dbNow
        adminUser).google_event_id = some e.id ∧
    (upsertAppointmentFromGoogleEvent companyId (some a) e dbNewId dbNow adminUser).company_id
        = companyId ∧
    (upsertAppointmentFromGoogleEvent companyId (some a) e dbNewId dbNow adminUser).status
        = "scheduled" ∧
    (upsertAppointmentFromGoogleEvent companyId (some a) e dbNewId dbNow
        adminUser).google_calendar_id = e.organizer_email.getD "primary" :=
  ⟨rfl, rfl, rfl, rfl, rfl, rfl, rfl, rfl, rfl, rfl, rfl, rfl, rfl, rfl, rfl⟩

/-! ## `syncSingleIntegration`: phase ordering and error propagation -/

/-- The three phases of one bidirectional sync. -/
inductive PhaseTag
  | phaseA
  | phaseB
  | phaseC
  deriving Repr, DecidableEq

/-- Outcomes of the stages of one `syncSingleIntegration` run:
`ensureValidToken`, the body of Phase A inside its own `try`, Phase B
(`syncGoogleEventsToLocal`, which has no internal catch at this level),
and the body of Phase C inside its own `try`. -/
structure SyncPhaseOutcomes where
  tokenResult : Except String String
  phaseABody : Except String Unit
  phaseB : Except String Nat
  phaseCBody : Except String Unit
  deriving Repr, DecidableEq

/-- Embedding of `syncLocalAppointmentsToGoogle` at error-propagation
granularity: its whole body sits in a `try/catch` whose handler logs and
returns, so the call never throws. -/
def syncLocalAppointmentsToGoogle (body : Except String Unit) : Except String Unit :=
  match body with
  | Except.ok _ => Except.ok ()
  | Except.error _ => Except.ok ()

/-- Embedding of `cleanupOrphanedAppointments` at error-propagation
granularity: its whole body sits in a `try/catch` whose handler logs and
returns, so the call never throws. -/
def cleanupOrphanedAppointmentsCaught (body : Except String Unit) : Except String Unit :=
  match body with
  | Except.ok _ => Except.ok ()
  | Except.error _ => Except.ok ()

/-- Embedding of `syncSingleIntegration(integration)`: token check, then
the three phases in order 1/3, 2/3, 3/3; any error reaching this level
is re-thrown after logging.  Returns the phases that started executing
and the final outcome. -/
def syncSingleIntegration (o : SyncPhaseOutcomes) : List PhaseTag × Except String Nat :=
  match o.tokenResult with
  | Except.error e => ([], Except.error e)
  | Except.ok _ =>
    match syncLocalAppointmentsToGoogle o.phaseABody with
    | Except.error e => ([PhaseTag.phaseA], Except.error e)
    | Except.ok _ =>
      match o.phaseB with
      | Except.error e => ([PhaseTag.phaseA, PhaseTag.phaseB], Except.error e)
      | Except.ok n =>
        match cleanupOrphanedAppointmentsCaught o.phaseCBody with
        | Except.error e =>
          ([PhaseTag.phaseA, PhaseTag.phaseB, PhaseTag.phaseC], Except.error e)
        | Except.ok _ => ([PhaseTag.phaseA, PhaseTag.phaseB, PhaseTag.phaseC], Except.ok n)

/-- C1 fails as stated: with a valid token and a Phase B
(`syncGoogleEventsToLocal`) that throws a transient error, Phase C never
executes — the error propagates out of `syncSingleIntegration` instead
of being confined to Phase B. -/
theorem C1_counterexample :
    PhaseTag.phaseC ∉
      (syncSingleIntegration
        ⟨Except.ok "tok", Except.ok (), Except.error "network timeout", Except.ok ()⟩).1 ∧
    (syncSingleIntegration
        ⟨Except.ok "tok", Except.ok (), Except.error "network timeout", Except.ok ()⟩).2 =
      Except.error "network timeout" := by
  decide

/-- C1 amended: the three phases run in strict order A, B, C; Phase A
and Phase C catch their own errors, so a failure confined to Phase A
never prevents Phases B and C and a failure confined to Phase C never
fails the run; but a Phase B throw propagates and prevents Phase C from
executing (the run then fails with Phase B's error), and a token failure
prevents every phase. -/
theorem C1_phase_continuation (o : SyncPhaseOutcomes) :
    (∀ e, o.tokenResult = Except.error e →
        syncSingleIntegration o = ([], Except.error e)) ∧
    (∀ t, o.tokenResult = Except.ok t →
      (∀ e, o.phaseB = Except.error e →
          syncSingleIntegration o =
            ([PhaseTag.phaseA, PhaseTag.phaseB], Except.error e)) ∧
      (∀ n, o.phaseB = Except.ok n →
          syncSingleIntegration o =
            ([PhaseTag.phaseA, PhaseTag.phaseB, PhaseTag.phaseC], Except.ok n))) := by
  constructor
  · intro e he
    simp [syncSingleIntegration, he]
  · intro t ht
    constructor
    · intro e he
      cases hA : o.phaseABody <;>
        simp [syncSingleIntegration, ht, he, hA, syncLocalAppointmentsToGoogle]
    · intro n hn
      cases hA : o.phaseABody <;> cases hC : o.phaseCBody <;>
        simp [syncSingleIntegration, ht, hn, hA, hC, syncLocalAppointmentsToGoogle,
          cleanupOrphanedAppointmentsCaught]

/-- Concrete instantiation of `C1_phase_continuation`: with both the
Phase A body and the Phase C body failing, all three phases still run
and the sync completes with Phase B's event count. -/
theorem C1_phase_continuation_witness :
    syncSingleIntegration
        ⟨Except.ok "tok", Except.error "create event failed", Except.ok 4,
          Except.error "cleanup query failed"⟩ =
      ([PhaseTag.phaseA, PhaseTag.phaseB, PhaseTag.phaseC], Except.ok 4) :=
  ((C1_phase_continuation _).2 "tok" rfl).2 4 rfl

/-! ## `syncAllIntegrations`: the batch loop's error handling -/

/-- Aggregates of one batch cycle: counters and the ids passed to
`markIntegrationAsError` (which sets the integration's status to
`error`). -/
structure BatchResult where
  processedCount : Nat
  successCount : Nat
  errorCount : Nat
  markedAsError : List Nat
  deriving Repr, DecidableEq

/-- Embedding of the `for (const integration of batchIntegrations)` loop
of `syncAllIntegrations`; `outcome i` is what `syncSingleIntegration`
returns or throws for integration `i`.  A caught error increments the
error counter and calls `markIntegrationAsError` only when
`isPersistentError(error)` holds; the loop then continues either way. -/
def syncAllIntegrationsLoop (outcome : Nat → Except String Nat) : List Nat → BatchResult
  | [] => ⟨0, 0, 0, []⟩
  | i :: rest =>
    let r := syncAllIntegrationsLoop outcome rest
    match outcome i with
    | Except.ok _ => ⟨r.processedCount + 1, r.successCount + 1, r.errorCount, r.markedAsError⟩
    | Except.error e =>
      ⟨r.processedCount + 1, r.successCount, r.errorCount + 1,
        if isPersistentError e then i :: r.markedAsError else r.markedAsError⟩

/-- C7 fails as stated: an integration failing with a transient error
whose retries were exhausted (message "network timeout after retries",
containing none of the terminal markers) is counted as an error but is
NOT marked `status = error`. -/
theorem C7_counterexample :
    (syncAllIntegrationsLoop (fun _ => Except.error "network timeout after retries")
        [7]).errorCount = 1 ∧
    (syncAllIntegrationsLoop (fun _ => Except.error "network timeout after retries")
        [7]).markedAsError = [] := by
  decide

/-- C7 amended: the batch loop catches every per-integration error and
always continues through the whole batch (every listed integration is
processed), and it marks an integration `status = error` iff that
integration's sync threw an error whose message contains one of the
terminal markers (401/403/404/410/invalid_grant/token_revoked); a
transient error with exhausted retries is counted but not marked. -/
theorem C7_batch_error_marking (outcome : Nat → Except String Nat) (ids : List Nat) :
    (syncAllIntegrationsLoop outcome ids).processedCount = ids.length ∧
    (∀ i, i ∈ (syncAllIntegrationsLoop outcome ids).markedAsError ↔
        i ∈ ids ∧ ∃ e, outcome i = Except.error e ∧ isPersistentError e = true) := by
  induction ids with
  | nil => exact ⟨rfl, by simp [syncAllIntegrationsLoop]⟩
  | cons j rest ih =>
    constructor
    · cases h : outcome j <;> simp [syncAllIntegrationsLoop, h, ih.1]
    · intro i
      cases h : outcome j with
      | ok n =>
        simp only [syncAllIntegrationsLoop, h]
        constructor
        · intro hm
          have hih := (ih.2 i).mp hm
          exact ⟨List.mem_cons_of_mem j hih.1, hih.2⟩
        · rintro ⟨hmem, e, he, hp⟩
          rcases List.mem_cons.mp hmem with rfl | hmem
          · rw [h] at he
            cases he
          · exact (ih.2 i).mpr ⟨hmem, e, he, hp⟩
      | error e =>
        by_cases hpe : isPersistentError e = true
        · simp only [syncAllIntegrationsLoop, h, if_pos hpe, List.mem_cons]
          constructor
          · rintro (rfl | hm)
            · exact ⟨Or.inl rfl, e, h, hpe⟩
            · have hih := (ih.2 i).mp hm
              exact ⟨Or.inr hih.1, hih.2⟩
          · rintro ⟨rfl | hmem, f, hf, hpf⟩
            · exact Or.inl rfl
            · exact Or.inr ((ih.2 i).mpr ⟨hmem, f, hf, hpf⟩)
        · simp only [syncAllIntegrationsLoop, h, if_neg hpe]
          constructor
          · intro hm
            have hih := (ih.2 i).mp hm
            exact ⟨List.mem_cons_of_mem j hih.1, hih.2⟩
          · rintro ⟨hmem, f, hf, hpf⟩
            rcases List.mem_cons.mp hmem with rfl | hmem
            · rw [h] at hf
              cases hf
              exact absurd hpf hpe
            · exact (ih.2 i).mpr ⟨hmem, f, hf, hpf⟩

/-- Per-integration outcomes for the batch instantiation: integration 1
throws a terminal 401 error, integration 2 a transient timeout,
integration 3 succeeds. -/
def batchSampleOutcome : Nat → Except String Nat := fun i =>
  if i = 1 then Except.error "Google Calendar API error: 401 - unauthorized"
  else if i = 2 then Except.error "timeout"
  else Except.ok 0

/-- Concrete instantiation of `C7_batch_error_marking`: all three
integrations are processed, the 401 one is marked, the timeout one is
not. -/
theorem C7_batch_error_marking_witness :
    (syncAllIntegrationsLoop batchSampleOutcome [1, 2, 3]).processedCount = 3 ∧
    1 ∈ (syncAllIntegrationsLoop batchSampleOutcome [1, 2, 3]).markedAsError ∧
    2 ∉ (syncAllIntegrationsLoop batchSampleOutcome [1, 2, 3]).markedAsError := by
  have h := C7_batch_error_marking batchSampleOutcome [1, 2, 3]
  refine ⟨by simpa using h.1, ?_, ?_⟩
  · exact (h.2 1).mpr ⟨by decide, "Google Calendar API error: 401 - unauthorized", rfl,
      by decide⟩
  · intro hm
    obtain ⟨_, e, he, hp⟩ := (h.2 2).mp hm
    have he2 : batchSampleOutcome 2 = Except.error "timeout" := rfl
    rw [he2] at he
    cases he
    exact absurd hp (by decide)

end CalendarServer
